import Mathlib

/-!
Verification of the MBFilter orchestration layer (src/src/main.rs, src/src/lib.rs).

The repository is a command-line program and WebSocket server that drives an
external hardware peak-detection filter (`MBFilter`, from the external
`moessbauer_filter` crate).  The orchestration code in `main.rs` is embedded
shallowly below: each branch of the Rust source becomes a pure Lean function
whose extra parameters stand for the outcomes supplied by the external device
driver (the result of a `read`, whether `try_lock` succeeded, what
`configuration()` reads back).  The device driver itself is not part of this
repository; where its state transitions are needed they are modelled from the
spec and marked as such.
-/

/-- Device state, mirroring `MBFState` of the external `moessbauer_filter`
crate as used by `main.rs` (variants matched at main.rs:143, 207, 301). -/
inductive MBFState where
  | Ready : MBFState
  | InvalidParameters : MBFState
  | Running (frame_count : Nat) : MBFState
  | FIFOFull (frame_count : Nat) : MBFState
  | Halted : MBFState
deriving DecidableEq, Repr

/-- The error enum of src/src/lib.rs (`MBError`); the payloads of
`FilterError` and `IOError` live in external crates and are dropped. -/
inductive MBError where
  | WrongState : MBError
  | InvalidInput : MBError
  | FilterError : MBError
  | IOError : MBError
deriving DecidableEq, Repr

/-- A device-mutating operation issued on the shared `MBFilter` handle. -/
inductive DevAction where
  | start : DevAction
  | stop : DevAction
  | read : DevAction
  | configure : DevAction
deriving DecidableEq, Repr

/-- Whether a code path ran to completion or aborted the process
(`unwrap` on an `Err`, or `unimplemented!`). -/
inductive CleanupOutcome where
  | done : CleanupOutcome
  | panicked : CleanupOutcome
deriving DecidableEq, Repr

/-- Shallow embedding of `clean_up` (main.rs:298-319).  The function locks the
filter, matches on its state and issues the operations of the matching arm;
`readRes` is the value the device driver returns for the single bounded
`read` in the arms that read (`Except.error` models an `Err`, which the
source `unwrap`s into a panic).  The result is the list of device operations
issued, in order, and whether the call completed or panicked. -/
def clean_up (st : MBFState) (readRes : Except Unit Nat) :
    List DevAction × CleanupOutcome :=
  match st with
  | .InvalidParameters => ([], .done)
  | .FIFOFull _ =>
      ([.read], match readRes with | .ok _ => .done | .error _ => .panicked)
  | .Ready => ([], .done)
  | .Running _ =>
      ([.stop, .read], match readRes with | .ok _ => .done | .error _ => .panicked)
  | .Halted =>
      ([.stop, .read], match readRes with | .ok _ => .done | .error _ => .panicked)

/-- The observable result of one iteration of the reader task's loop
(main.rs:238-268): which payload (byte count) was handed to
`wstx.send`, if any; whether `clean_up` was invoked; and whether the
loop `break`s. -/
structure IterResult where
  sendAttempted : Option Nat
  ranCleanup : Bool
  breaks : Bool
deriving DecidableEq, Repr

/-- Shallow embedding of one iteration of the reader task's loop
(main.rs:238-268).  `readRes` is what `filter.read` returned for this
iteration and `sendOk` is whether `wstx.send` succeeds when it is
attempted (the client may have disconnected). -/
def reader_iteration (readRes : Except Unit Nat) (sendOk : Bool) : IterResult :=
  match readRes with
  | .ok count =>
      if count % 12 == 0 then
        if sendOk then ⟨some count, false, false⟩
        else ⟨some count, true, true⟩
      else ⟨none, true, true⟩
  | .error _ => ⟨none, true, true⟩

/-- The five filter parameters, mirroring `MBConfig` of the external crate
as the orchestration uses it (constructed from k, l, m, pthresh, dead-time
at main.rs:124-129; compared with `!=` at main.rs:211). -/
structure MBConfig where
  k : Nat
  l : Nat
  m : Nat
  pthresh : Nat
  dead_time : Nat
deriving DecidableEq, Repr

/-- The three distinct `MBHTTPError` payloads produced by the server's
rejection paths (main.rs:201, 212, 216, 219). -/
inductive MBHTTPError where
  | invalidConfig : MBHTTPError
  | filterConfigLoadError : MBHTTPError
  | filterAlreadyRunning : MBHTTPError
deriving DecidableEq, Repr

/-- The device driver's behaviour as seen by `check_and_configure_filter`:
its current state, and what `configuration()` reads back after
`configure c` was written (the external crate decides this). -/
structure FilterDevice where
  state : MBFState
  readback : MBConfig → MBConfig

/-- Shallow embedding of `check_and_configure_filter` (main.rs:205-220).
`lockAcquired` is whether `filter.try_lock()` succeeded; on success the
state is inspected, and only in `Ready` or `InvalidParameters` is the
configuration written and read back, the read-back being rejected when it
differs from what was submitted. -/
def check_and_configure_filter (lockAcquired : Bool) (dev : FilterDevice)
    (config : MBConfig) : Except MBHTTPError MBConfig :=
  if lockAcquired then
    match dev.state with
    | .Ready | .InvalidParameters =>
        let read_config := dev.readback config
        if read_config ≠ config then .error .filterConfigLoadError
        else .ok read_config
    | _ => .error .filterAlreadyRunning
  else .error .filterAlreadyRunning

/-- What the controller task can see on `wsrx.next()` (main.rs:272-291):
a close message, any other message, or a receive error. -/
inductive CtrlMsg where
  | close : CtrlMsg
  | other : CtrlMsg
  | recvError : CtrlMsg
deriving DecidableEq, Repr

/-- Shallow embedding of one iteration of the controller task's loop
(main.rs:272-292): returns whether the loop `break`s, whether `clean_up`
was invoked, and the device operations issued. -/
def controller_step (msg : CtrlMsg) : Bool × Bool × List DevAction :=
  match msg with
  | .close => (true, false, [.stop])
  | .other => (false, false, [])
  | .recvError => (true, false, [.stop])

/-- Modelled from the spec: the device driver's `start` transition (spec
section 4.2); the `MBFilter` implementation is an external crate, not part
of this repository.  `start` moves `Ready` to `Running 0`. -/
def devStart (s : MBFState) : MBFState :=
  match s with
  | .Ready => .Running 0
  | s => s

/-- Modelled from the spec: the device driver's `stop` transition (spec
sections 4.1 and 4.2); the `MBFilter` implementation is an external crate,
not part of this repository.  `stop` moves `Running` to `Halted`, is
idempotent from `Halted`, and a no-op elsewhere. -/
def devStop (s : MBFState) : MBFState :=
  match s with
  | .Running _ => .Halted
  | .Halted => .Halted
  | s => s

/-- Replays a list of issued device operations through the spec-modelled
transitions; `drain` is the (driver-determined) effect of one bounded read
on the device state, left as a parameter because spec section 4.2 leaves it
nondeterministic. -/
def runActions (drain : MBFState → MBFState) (s : MBFState)
    (acts : List DevAction) : MBFState :=
  acts.foldl (fun s a =>
    match a with
    | .start => devStart s
    | .stop => devStop s
    | .read => drain s
    | .configure => s) s

/-- Shallow embedding of the first step of `ws_handler`'s upgrade future
(main.rs:227-230): the filter lock is taken and `start()` is invoked with
no state inspection and no error path.  Returns the spec-modelled successor
state and the operations issued. -/
def ws_handler_start (st : MBFState) : MBFState × List DevAction :=
  (devStart st, [.start])

/-- Shallow embedding of the read-and-write loop of the start subcommand
(main.rs:147-156): `while fc < requested_pc`, one bounded read per
iteration, all bytes written on.  `reads` lists the byte counts the driver
returns for successive reads; the result is the final byte count and the
number of reads issued, or `none` when `reads` is exhausted while the loop
still wants data. -/
def batch_loop (requested : Nat) : Nat → List Nat → Option (Nat × Nat)
  | fc, [] => if fc < requested then none else some (fc, 0)
  | fc, r :: rest =>
      if fc < requested then
        match batch_loop requested (fc + r) rest with
        | none => none
        | some (total, kk) => some (total, kk + 1)
      else some (fc, 0)

/-- Shallow embedding of the start subcommand (main.rs:135-161): only in
state `Ready` is the device started, the read-and-write loop run and the
device stopped; any other state produces `Err(MBError::WrongState)` with no
device operation issued.  `none` when the supplied `reads` trace is too
short to finish the loop. -/
def start_subcommand (st : MBFState) (requested : Nat) (reads : List Nat) :
    Option (Except MBError Nat × List DevAction) :=
  match st with
  | .Ready =>
      match batch_loop requested 0 reads with
      | none => none
      | some (total, kk) =>
          some (.ok total, .start :: (List.replicate kk .read ++ [.stop]))
  | _ => some (.error .WrongState, [])

/-- `true` when some `read` is issued after a `stop` in the list of
operations (a drain of residual data after stopping). -/
def readAfterStop : List DevAction → Bool
  | [] => false
  | .stop :: rest => rest.contains .read || readAfterStop rest
  | _ :: rest => readAfterStop rest

/-- The subcommands of the command-line interface (main.rs:45-119). -/
inductive Subcommand where
  | configure : Subcommand
  | server : Subcommand
  | start : Subcommand
  | status : Subcommand
  | stop : Subcommand
deriving DecidableEq, Repr

/-- How a one-shot command invocation leaves the process: a normal return
(`Ok` or a propagated `Err`), or a panic with the given message. -/
inductive CmdOutcome where
  | normalExit : CmdOutcome
  | panicked (msg : String) : CmdOutcome
deriving DecidableEq, Repr

/-- Shallow embedding of `main`'s subcommand dispatch (main.rs:122-194) for
the one-shot subcommands.  The stop subcommand (main.rs:165-167) is
`unimplemented!("stop subcommand")`: it panics and issues no device
operation.  `configure` writes a configuration, `status` only inspects,
`start` runs `start_subcommand`; the `server` subcommand never returns
(`none`). -/
def main_dispatch (cmd : Subcommand) (st : MBFState) (requested : Nat)
    (reads : List Nat) : Option (CmdOutcome × List DevAction) :=
  match cmd with
  | .configure => some (.normalExit, [.configure])
  | .server => none
  | .start =>
      match start_subcommand st requested reads with
      | none => none
      | some (_, acts) => some (.normalExit, acts)
  | .status => some (.normalExit, [])
  | .stop => some (.panicked "not implemented: stop subcommand", [])

/-- C1 (counterexample): in state `Halted`, `clean_up` does issue `stop()`
(main.rs:315), contrary to the claim that no `stop()` is issued in the
`Halted` case; and a read returning 0 or 12 bytes completes normally, so no
byte count is treated as a fatal inconsistency. -/
theorem c1_halted_stop_counterexample :
    (clean_up .Halted (.ok 12)).1 = [DevAction.stop, DevAction.read] ∧
    (clean_up .Halted (.ok 0)).2 = CleanupOutcome.done ∧
    (clean_up .Halted (.ok 12)).2 = CleanupOutcome.done := by
  decide

/-- C1 (amended): `clean_up` does nothing for `InvalidParameters` and
`Ready`; for `FIFOFull` it issues one bounded read and no `stop()`; for
`Running` it issues `stop()` then one bounded read; for `Halted` it issues
`stop()` then one bounded read; in every reading arm a read `Err` aborts
the process (`unwrap`) while the returned byte count is never checked. -/
theorem c1_cleanup_per_state (n kb : Nat) :
    clean_up .InvalidParameters (.ok kb) = ([], .done) ∧
    clean_up .Ready (.ok kb) = ([], .done) ∧
    clean_up (.FIFOFull n) (.ok kb) = ([.read], .done) ∧
    clean_up (.Running n) (.ok kb) = ([.stop, .read], .done) ∧
    clean_up .Halted (.ok kb) = ([.stop, .read], .done) ∧
    clean_up (.FIFOFull n) (.error ()) = ([.read], .panicked) ∧
    clean_up (.Running n) (.error ()) = ([.stop, .read], .panicked) ∧
    clean_up .Halted (.error ()) = ([.stop, .read], .panicked) :=
  ⟨rfl, rfl, rfl, rfl, rfl, rfl, rfl, rfl⟩

/-- C2 (code bug evaluated): a session whose reader hits a device error
while the state is `FIFOFull n` runs `clean_up`, which issues one drain
read and no `stop`; whatever state the spec's drain transition yields
(`Halted` or `Running n`), the controller's subsequent `stop()` on client
disconnect leaves the device `Halted`, never `Ready` — a later `status()`
does not report `Ready`, violating the Cleanup Protocol invariant. -/
theorem c2_cleanup_gap (n : Nat) (drain : MBFState → MBFState)
    (h : drain (.FIFOFull n) = .Halted ∨ drain (.FIFOFull n) = .Running n) :
    devStop (runActions drain (.FIFOFull n)
      (clean_up (.FIFOFull n) (.ok (2048 * 12))).1) ≠ MBFState.Ready := by
  rcases h with h | h <;> simp [clean_up, runActions, devStop, h]

theorem c2_cleanup_gap_witness :
    devStop (runActions (fun _ => MBFState.Halted) (.FIFOFull 5)
      (clean_up (.FIFOFull 5) (.ok 24576)).1) ≠ MBFState.Ready :=
  c2_cleanup_gap 5 (fun _ => MBFState.Halted) (Or.inl rfl)

/-- C3: a read whose byte count is not a multiple of 12 is never handed to
`wstx.send`; the iteration runs `clean_up` and `break`s out of the reader
loop (main.rs:256-260). -/
theorem c3_misaligned_read_fatal (count : Nat) (sendOk : Bool)
    (h : count % 12 ≠ 0) :
    reader_iteration (.ok count) sendOk = ⟨none, true, true⟩ := by
  simp only [reader_iteration]
  rw [if_neg]
  simpa using h

theorem c3_misaligned_read_fatal_witness :
    reader_iteration (.ok 13) true = ⟨none, true, true⟩ :=
  c3_misaligned_read_fatal 13 true (by decide)

/-- C4: `check_and_configure_filter` fails with the busy rejection when
`try_lock` does not succeed; with the lock held it rejects in `Running`,
`FIFOFull` and `Halted`, and proceeds to configure (succeeding or failing
on the read-back check) exactly in `Ready` and `InvalidParameters`
(main.rs:205-220). -/
theorem c4_try_configure (rb : MBConfig → MBConfig) (st : MBFState)
    (n : Nat) (c : MBConfig) :
    check_and_configure_filter false ⟨st, rb⟩ c = .error .filterAlreadyRunning ∧
    check_and_configure_filter true ⟨.Running n, rb⟩ c = .error .filterAlreadyRunning ∧
    check_and_configure_filter true ⟨.FIFOFull n, rb⟩ c = .error .filterAlreadyRunning ∧
    check_and_configure_filter true ⟨.Halted, rb⟩ c = .error .filterAlreadyRunning ∧
    check_and_configure_filter true ⟨.Ready, rb⟩ c =
      (if rb c = c then .ok (rb c) else .error .filterConfigLoadError) ∧
    check_and_configure_filter true ⟨.InvalidParameters, rb⟩ c =
      (if rb c = c then .ok (rb c) else .error .filterConfigLoadError) := by
  refine ⟨rfl, rfl, rfl, rfl, ?_, ?_⟩ <;>
    by_cases h : rb c = c <;> simp [check_and_configure_filter, h]

/-- C5: an accepted configure writes the configuration and reads it back;
a read-back equal to the submission yields success carrying exactly the
submitted values, and a differing read-back fails with the configuration
mismatch rejection (main.rs:209-214). -/
theorem c5_configure_verified (rb : MBConfig → MBConfig) (st : MBFState)
    (c : MBConfig) (hst : st = .Ready ∨ st = .InvalidParameters) :
    (rb c = c → check_and_configure_filter true ⟨st, rb⟩ c = .ok c) ∧
    (rb c ≠ c →
      check_and_configure_filter true ⟨st, rb⟩ c = .error .filterConfigLoadError) := by
  constructor
  · intro h
    rcases hst with hst | hst <;> subst hst <;> simp [check_and_configure_filter, h]
  · intro h
    rcases hst with hst | hst <;> subst hst <;> simp [check_and_configure_filter, h]

theorem c5_configure_verified_witness :
    check_and_configure_filter true ⟨.Ready, fun c => c⟩ ⟨4, 8, 16, 100, 50⟩ =
      .ok ⟨4, 8, 16, 100, 50⟩ :=
  (c5_configure_verified (fun c => c) .Ready ⟨4, 8, 16, 100, 50⟩ (Or.inl rfl)).1 rfl

/-- C6 (counterexample): the streaming path invokes `start()` with the
device in state `Running 0` — not `Ready` — and has no failure path at all
(main.rs:227-230 call `start()` unconditionally), so the invocation neither
fails with `WrongState` nor is prevented. -/
theorem c6_unguarded_ws_start_counterexample :
    (ws_handler_start (.Running 0)).2 = [DevAction.start] ∧
    MBFState.Running 0 ≠ MBFState.Ready := by
  decide

/-- C6 (amended): the batch start path invokes `start()` only after
checking that the state is `Ready` and otherwise returns
`Err(MBError::WrongState)` with no device operation issued
(main.rs:143-159); the streaming path's upgrade future invokes `start()`
unconditionally, without inspecting the state (main.rs:227-230). -/
theorem c6_start_guards (st : MBFState) (requested : Nat) (reads : List Nat)
    (h : st ≠ .Ready) :
    start_subcommand st requested reads = some (.error .WrongState, []) ∧
    (ws_handler_start st).2 = [DevAction.start] := by
  cases st with
  | Ready => exact absurd rfl h
  | InvalidParameters => exact ⟨rfl, rfl⟩
  | Running n => exact ⟨rfl, rfl⟩
  | FIFOFull n => exact ⟨rfl, rfl⟩
  | Halted => exact ⟨rfl, rfl⟩

theorem c6_start_guards_witness :
    start_subcommand .Halted 24 [12, 12] = some (.error .WrongState, []) ∧
    (ws_handler_start .Halted).2 = [DevAction.start] :=
  c6_start_guards .Halted 24 [12, 12] (by decide)

/-- In a completed batch loop the accumulated byte count reaches the
requested target. -/
theorem batch_loop_reaches_target (requested : Nat) (reads : List Nat) :
    ∀ fc total kk, batch_loop requested fc reads = some (total, kk) →
      requested ≤ total := by
  induction reads with
  | nil =>
      intro fc total kk h
      simp only [batch_loop] at h
      split at h
      · exact absurd h (by simp)
      · simp only [Option.some.injEq, Prod.mk.injEq] at h
        omega
  | cons r rest ih =>
      intro fc total kk h
      simp only [batch_loop] at h
      split at h
      · cases hrec : batch_loop requested (fc + r) rest with
        | none => rw [hrec] at h; exact absurd h (by simp)
        | some p =>
            cases p with
            | mk t2 k2 =>
                rw [hrec] at h
                simp only [Option.some.injEq, Prod.mk.injEq] at h
                have := ih (fc + r) t2 k2 hrec
                omega
      · simp only [Option.some.injEq, Prod.mk.injEq] at h
        omega

/-- The batch path's operation list never reads after its final `stop`. -/
theorem readAfterStop_batch (kk : Nat) :
    readAfterStop (.start :: (List.replicate kk .read ++ [.stop])) = false := by
  show readAfterStop (List.replicate kk .read ++ [.stop]) = false
  induction kk with
  | zero => rfl
  | succ m ih => simpa [List.replicate_succ, readAfterStop] using ih

/-- C7 (counterexample): a concrete completed batch run (`Ready` state,
target 24 bytes, two reads of 12 bytes) issues `start`, two reads and a
final `stop`, and no read is ever issued after the `stop` — the device is
stopped but residual data is not drained (main.rs:157 is followed by no
further read). -/
theorem c7_no_drain_counterexample :
    start_subcommand .Ready 24 [12, 12] =
      some (.ok 24, [.start, .read, .read, .stop]) ∧
    readAfterStop [.start, .read, .read, .stop] = false :=
  ⟨rfl, rfl⟩

/-- C7 (amended): a batch run from `Ready` that completes runs the loop
until the written byte count is at least the requested target, then stops
the device; it performs no drain read after the `stop`. -/
theorem c7_batch_stops_without_drain (requested total kk : Nat)
    (reads : List Nat) (h : batch_loop requested 0 reads = some (total, kk)) :
    start_subcommand .Ready requested reads =
      some (.ok total, .start :: (List.replicate kk .read ++ [.stop])) ∧
    requested ≤ total ∧
    readAfterStop (.start :: (List.replicate kk .read ++ [.stop])) = false := by
  refine ⟨?_, batch_loop_reaches_target requested reads 0 total kk h,
    readAfterStop_batch kk⟩
  simp [start_subcommand, h]

theorem c7_batch_stops_without_drain_witness :
    start_subcommand .Ready 24 [12, 12] =
      some (.ok 24, .start :: (List.replicate 2 .read ++ [.stop])) ∧
    24 ≤ 24 ∧
    readAfterStop (.start :: (List.replicate 2 .read ++ [.stop])) = false :=
  c7_batch_stops_without_drain 24 24 2 [12, 12] rfl

/-- C8 (counterexample): a read of zero bytes passes the `count % 12 == 0`
check (main.rs:247), so the reader sends an empty message to the client, runs
no cleanup and continues its loop — a zero-length read is not a termination
condition. -/
theorem c8_zero_read_continues_counterexample :
    reader_iteration (.ok 0) true =
      { sendAttempted := some 0, ranCleanup := false, breaks := false } := by
  decide

/-- C8 (amended): a zero-length read is forwarded as an empty message; the
iteration terminates the session only when that send fails (a disconnected
client), in which case `clean_up` runs and the loop `break`s. -/
theorem c8_zero_read_paths :
    reader_iteration (.ok 0) false =
      { sendAttempted := some 0, ranCleanup := true, breaks := true } ∧
    (reader_iteration (.ok 0) true).ranCleanup = false ∧
    (reader_iteration (.ok 0) true).breaks = false := by
  decide

/-- C9 (counterexample): when the controller task receives a close message
it breaks out of its loop having issued only `stop()` — `clean_up` runs
zero times, not exactly once — while a concurrently scheduled reader
iteration that reads 12 aligned bytes and sends them successfully neither
breaks nor observes the controller's termination, continuing to operate on
the device. -/
theorem c9_terminator_counterexample :
    controller_step .close = (true, false, [DevAction.stop]) ∧
    (reader_iteration (.ok 12) true).breaks = false ∧
    (reader_iteration (.ok 12) true).ranCleanup = false := by
  decide

/-- C9 (amended): `clean_up` is invoked only by the reader task — the
controller task never runs it on any message — and the reader runs it
exactly on the iterations that terminate its loop (read error, misaligned
count, or send failure). -/
theorem c9_cleanup_owner (msg : CtrlMsg) (r : Except Unit Nat) (sendOk : Bool) :
    (controller_step msg).2.1 = false ∧
    (reader_iteration r sendOk).ranCleanup = (reader_iteration r sendOk).breaks := by
  constructor
  · cases msg <;> rfl
  · cases r with
    | error e => rfl
    | ok n =>
        simp only [reader_iteration]
        split
        · cases sendOk <;> rfl
        · rfl

/-- C10: selecting the stop subcommand always aborts the process with the
`unimplemented!` panic (main.rs:165-167), whatever the device state or the
driver's read behaviour, and issues no device operation — the filter is not
stopped and no result is returned. -/
theorem c10_stop_unimplemented (st : MBFState) (requested : Nat)
    (reads : List Nat) :
    main_dispatch .stop st requested reads =
      some (.panicked "not implemented: stop subcommand", []) :=
  rfl
